import Mathlib

/-!
Shallow embedding of `src/store/app/routers/stripe.py` (the Stripe router of
the `store` repository) and proofs about its five HTTP handlers:
`create_payment_intent`, `refund_payment_intent`, `stripe_webhook`
(with `handle_checkout_session_completed`), `create_checkout_session` and
`get_product`.

External collaborators (the Stripe client library and the `Crud` persistence
object) are modelled as oracle environments: each external call is a field of
an environment structure returning `Except PyExn α`, so a single run of a
handler is a pure function of its environment and request.  Every external
call a handler performs is also recorded in an effect trace (`List Effect`),
which lets us state ordering and frame properties ("the processor refund was
requested before the order lookup", "no persistence operation happened").

Python exception semantics relevant here:
  * `fastapi.HTTPException` subclasses `Exception`, so a bare
    `except Exception` catches it;
  * `stripe.Webhook.construct_event` raises `ValueError` on an invalid
    payload and `stripe.error.SignatureVerificationError` (a `StripeError`,
    not a `ValueError`) on a signature mismatch;
  * `str(HTTPException(code, detail))` is `"code: detail"` (Starlette);
  * an exception that escapes a handler is turned into a response by the
    framework: an `HTTPException` becomes a response with its status code,
    any other exception becomes a plain 500 "Internal Server Error".
Truthiness of Python strings and lists (empty is falsy) is modelled
explicitly where the source relies on it.

Processor-defined payloads (verified webhook events, sessions, line items)
are modelled as structures whose fields correspond to the dictionary keys the
source reads; keys read with `[...]` are total fields, keys read with
`.get(...)` are `Option` fields.
-/

namespace StoreStripe

/-- Python exceptions that can flow through these handlers.  `httpException`
is `fastapi.HTTPException`; `valueError`, `signatureVerification` and
`stripeError` stand for the library exception classes the source
distinguishes; `other` is any remaining `Exception`. -/
inductive PyExn where
  | httpException (statusCode : Nat) (detail : String)
  | valueError (msg : String)
  | signatureVerification (msg : String)
  | stripeError (msg : String)
  | other (msg : String)
deriving DecidableEq, Repr

/-- Python `str(e)`.  For Starlette's `HTTPException` this is
`f"..."` rendered as `"statusCode: detail"`; for the other exception classes we
keep their message. -/
def PyExn.toStr : PyExn → String
  | .httpException s d => toString s ++ ": " ++ d
  | .valueError m => m
  | .signatureVerification m => m
  | .stripeError m => m
  | .other m => m

/-- Is the exception a `fastapi.HTTPException`?  External collaborators
(Stripe client, Crud) raise library exceptions, never `HTTPException`. -/
def PyExn.isHttp : PyExn → Bool
  | .httpException _ _ => true
  | _ => false

/-- The HTTP response the framework sends for one handler run: a 200 success
carrying the handler's return value, or an error response. -/
inductive HttpResult (α : Type) where
  | success (value : α)
  | failure (statusCode : Nat) (detail : String)
deriving DecidableEq, Repr

/-- How FastAPI/Starlette turns a handler outcome into a response: a returned
value is a 200 success; a raised (or escaping) `HTTPException` becomes a
response with its status code and detail; any other escaping exception
becomes a generic 500. -/
def frameworkRun {α : Type} : Except PyExn α → HttpResult α
  | .ok v => .success v
  | .error (.httpException s d) => .failure s d
  | .error _ => .failure 500 "Internal Server Error"

/-- The status code of a response (a 200 success or the failure status). -/
def HttpResult.statusCode {α : Type} : HttpResult α → Nat
  | .success _ => 200
  | .failure s _ => s

/-- Python truthiness of an optional string: `None` and `""` are falsy. -/
def truthy : Option String → Bool
  | none => false
  | some s => s ≠ ""

/-- Python `a and b` on optional strings: `a` if `a` is falsy, else `b`. -/
def pyAnd (a b : Option String) : Option String :=
  if truthy a then b else a

/-- Python `a or b` where `a` is an optional string and `b` a plain string:
`a`'s value if truthy, else `b`. -/
def pyOr (a : Option String) (b : String) : String :=
  match a with
  | none => b
  | some s => if s ≠ "" then s else b

/-! ### Data model -/

/-- The authenticated user (`store.app.model.User`): the fields this router
reads. -/
structure User where
  id : String
  email : String
deriving DecidableEq, Repr

/-- An order record (`store.app.model.Order`): the fields this router reads. -/
structure Order where
  id : String
  user_id : String
deriving DecidableEq, Repr

/-- Request model `CancelReason` (stripe.py lines 43-45). -/
structure CancelReason where
  reason : String
  details : String
deriving DecidableEq, Repr

/-- Request model `CreateRefundsRequest` (stripe.py lines 48-51). -/
structure CreateRefundsRequest where
  payment_intent_id : String
  cancel_reason : CancelReason
  amount : Int
deriving DecidableEq, Repr

/-- A Stripe refund object as used by the handler: its `id` and its
(possibly absent) `status` string. -/
structure Refund where
  id : String
  status : Option String
deriving DecidableEq, Repr

/-- The field mapping `order_data` passed to `crud.update_order`
(stripe.py lines 87-92). -/
structure RefundUpdateData where
  stripe_refund_id : String
  status : String
deriving DecidableEq, Repr

/-- The field mapping `order_data` passed to `crud.create_order`
(stripe.py lines 140-157). -/
structure OrderCreateData where
  user_id : Option String
  user_email : String
  stripe_checkout_session_id : String
  stripe_payment_intent_id : Option String
  amount : Int
  currency : String
  status : String
  product_id : Option String
  quantity : Int
  shipping_name : Option String
  shipping_address_line1 : Option String
  shipping_address_line2 : Option String
  shipping_city : Option String
  shipping_state : Option String
  shipping_postal_code : Option String
  shipping_country : Option String
deriving DecidableEq, Repr

/-- One external call performed by a handler, recorded in program order. -/
inductive Effect where
  | stripePaymentIntentCreate (amount : Option Int)
  | stripeRefundCreate (payment_intent : String) (amount : Int)
      (reason : String) (customer_reason : String)
  | crudGetOrder (order_id : String)
  | crudUpdateOrder (order_id : String) (data : RefundUpdateData)
  | stripeListLineItems (session_id : String)
  | crudCreateOrder (data : OrderCreateData)
  | stripePriceList (product_id : String)
  | stripeSessionCreate (price_id : String)
  | stripeProductRetrieve (product_id : String)
deriving DecidableEq, Repr

/-- Is the effect an operation on the persistence layer (a `crud` call)? -/
def Effect.isPersistence : Effect → Bool
  | .crudGetOrder _ => true
  | .crudUpdateOrder _ _ => true
  | .crudCreateOrder _ => true
  | _ => false

/-! ### Refund endpoint (`PUT /refunds/{order_id}`, stripe.py lines 54-100) -/

/-- Oracle for the external calls `refund_payment_intent` makes.
`refundCreate` is `stripe.Refund.create(payment_intent, amount, reason,
metadata.customer_reason)`; `getOrder` and `updateOrder` are the Crud calls. -/
structure RefundEnv where
  refundCreate : String → Int → String → String → Except PyExn Refund
  getOrder : String → Except PyExn (Option Order)
  updateOrder : String → RefundUpdateData → Except PyExn Order

/-- The `customer_reason` metadata value (stripe.py lines 65-69):
`details if (reason == "Other" and details) else reason`, with Python string
truthiness. -/
def customerReason (cr : CancelReason) : String :=
  if cr.reason = "Other" ∧ cr.details ≠ "" then cr.details else cr.reason

/-- The `stripe.Refund.create` call with the arguments the source passes
(stripe.py lines 72-77), as a recorded effect. -/
def refundCallEffect (refund_request : CreateRefundsRequest) : Effect :=
  .stripeRefundCreate refund_request.payment_intent_id refund_request.amount
    "requested_by_customer" (customerReason refund_request.cancel_reason)

/-- The `order_data` mapping built at stripe.py lines 87-92:
`stripe_refund_id` is the refund's id and `status` is
`"refunded" if (refund.status and refund.status) == "succeeded" else
(refund.status or "no status!")`. -/
def refundOrderData (refund : Refund) : RefundUpdateData :=
  { stripe_refund_id := refund.id
    status :=
      if pyAnd refund.status refund.status = some "succeeded" then "refunded"
      else pyOr refund.status "no status!" }

/-- The body of the `try` block of `refund_payment_intent`
(stripe.py lines 62-97): create the processor refund, look the order up,
raise a 404 `HTTPException` if it is missing or owned by another user,
update the order, return the updated order.  Any step may raise. -/
def refundTryBody (env : RefundEnv) (order_id : String)
    (refund_request : CreateRefundsRequest) (user : User) :
    Except PyExn Order × List Effect :=
  match env.refundCreate refund_request.payment_intent_id refund_request.amount
      "requested_by_customer" (customerReason refund_request.cancel_reason) with
  | .error e => (.error e, [refundCallEffect refund_request])
  | .ok refund =>
    match env.getOrder order_id with
    | .error e =>
        (.error e, [refundCallEffect refund_request, .crudGetOrder order_id])
    | .ok none =>
        (.error (.httpException 404 "Order not found"),
         [refundCallEffect refund_request, .crudGetOrder order_id])
    | .ok (some order) =>
      if order.user_id ≠ user.id then
        (.error (.httpException 404 "Order not found"),
         [refundCallEffect refund_request, .crudGetOrder order_id])
      else
        match env.updateOrder order_id (refundOrderData refund) with
        | .error e =>
            (.error e,
             [refundCallEffect refund_request, .crudGetOrder order_id,
              .crudUpdateOrder order_id (refundOrderData refund)])
        | .ok updated_order =>
            (.ok updated_order,
             [refundCallEffect refund_request, .crudGetOrder order_id,
              .crudUpdateOrder order_id (refundOrderData refund)])

/-- The whole handler `refund_payment_intent` (stripe.py lines 54-100): the
`try` body wrapped in `except Exception as e: raise HTTPException(500,
str(e))`.  Note that the 404 `HTTPException` raised inside the `try` block is
itself an `Exception`, so it too is caught and re-raised as a 500. -/
def refund_payment_intent (env : RefundEnv) (order_id : String)
    (refund_request : CreateRefundsRequest) (user : User) :
    Except PyExn Order × List Effect :=
  match refundTryBody env order_id refund_request user with
  | (.ok o, effs) => (.ok o, effs)
  | (.error e, effs) => (.error (.httpException 500 e.toStr), effs)

/-! ### Payment-intent creation endpoint (`POST /create-payment-intent`,
stripe.py lines 23-40) -/

/-- The request body: `data.get("amount")` may be absent. -/
structure PaymentIntentRequestData where
  amount : Option Int
deriving DecidableEq, Repr

/-- A Stripe payment intent as used by the handler. -/
structure PaymentIntent where
  id : String
  client_secret : String
deriving DecidableEq, Repr

/-- The JSON body `create_payment_intent` returns: either
`{"clientSecret": ...}` or, from the `except` branch, `{"error": str(e)}`.
Both are returned normally, i.e. sent as a 200 success. -/
inductive PaymentIntentResponse where
  | clientSecret (secret : String)
  | errorBody (msg : String)
deriving DecidableEq, Repr

/-- Oracle for `create_payment_intent`: the outcome of `request.json()` and of
`stripe.PaymentIntent.create` on the parsed amount. -/
structure PaymentIntentEnv where
  request_json : Except PyExn PaymentIntentRequestData
  paymentIntentCreate : Option Int → Except PyExn PaymentIntent

/-- The handler `create_payment_intent` (stripe.py lines 23-40): on success it
returns the client secret; on ANY exception it RETURNS `{"error": str(e)}` —
a normal return, not a raised error, so the response is a 200. -/
def create_payment_intent (env : PaymentIntentEnv) :
    Except PyExn PaymentIntentResponse × List Effect :=
  match env.request_json with
  | .error e => (.ok (.errorBody e.toStr), [])
  | .ok data =>
    match env.paymentIntentCreate data.amount with
    | .error e =>
        (.ok (.errorBody e.toStr), [Effect.stripePaymentIntentCreate data.amount])
    | .ok intent =>
        (.ok (.clientSecret intent.client_secret),
         [Effect.stripePaymentIntentCreate data.amount])

/-! ### Webhook endpoint (`POST /webhook`, stripe.py lines 103-163) -/

/-- The `address` dictionary inside `shipping_details`; every key is read
with `.get`, so every field is optional. -/
structure AddressDict where
  line1 : Option String
  line2 : Option String
  city : Option String
  state : Option String
  postal_code : Option String
  country : Option String
deriving DecidableEq, Repr

/-- The `shipping_details` dictionary: `name` and `address` are read with
`.get`.  An absent dictionary (`session.get("shipping_details", {})`
returning the `\x7b\x7d` default) is modelled as `none` at the use sites. -/
structure ShippingDetails where
  name : Option String
  address : Option AddressDict
deriving DecidableEq, Repr

/-- The checkout-session object of a verified `checkout.session.completed`
event (`event["data"]["object"]`), with exactly the keys the source reads:
`[...]`-indexed keys are total fields, `.get` keys are optional.
`customer_details_email` is `session["customer_details"]["email"]` and
`metadata_product_id` is `session["metadata"].get("product_id")`. -/
structure CheckoutSessionObject where
  id : String
  client_reference_id : Option String
  payment_intent : Option String
  amount_total : Int
  currency : String
  customer_details_email : String
  metadata_product_id : Option String
  shipping_details : Option ShippingDetails
deriving DecidableEq, Repr

/-- A verified Stripe event: its `type` string and its `data.object`.
Verified Stripe events always carry `data.object` with an `id`; the handler
only interprets the object as a checkout session when the type is
`checkout.session.completed`. -/
structure StripeEvent where
  type : String
  obj : CheckoutSessionObject
deriving DecidableEq, Repr

/-- One line item, with the `quantity` field the source reads. -/
structure LineItem where
  quantity : Int
deriving DecidableEq, Repr

/-- The outcome of `stripe.Webhook.construct_event(payload, sig_header,
secret)`: a verified event, a `ValueError` (invalid payload), or a
`SignatureVerificationError` (signature mismatch — a `StripeError`
subclass, NOT a `ValueError`). -/
inductive ConstructEventOutcome where
  | ok (event : StripeEvent)
  | valueError (msg : String)
  | signatureVerificationError (msg : String)

/-- Oracle for the webhook handler: the verification outcome for this
request's payload and signature, plus the external calls
`handle_checkout_session_completed` makes. -/
structure WebhookEnv where
  construct_event : ConstructEventOutcome
  list_line_items : String → Except PyExn (List LineItem)
  create_order : OrderCreateData → Except PyExn Order

/-- The `order_data` mapping built at stripe.py lines 137-157, given the
session and its listed line items.  `quantity` is
`line_items.data[0].quantity if line_items.data else 1` (Python list
truthiness: an empty list is falsy); the shipping fields chain `.get` reads
through the possibly-absent `shipping_details` and `address` dictionaries. -/
def checkoutOrderData (session : CheckoutSessionObject)
    (line_items : List LineItem) : OrderCreateData :=
  { user_id := session.client_reference_id
    user_email := session.customer_details_email
    stripe_checkout_session_id := session.id
    stripe_payment_intent_id := session.payment_intent
    amount := session.amount_total
    currency := session.currency
    status := "processing"
    product_id := session.metadata_product_id
    quantity :=
      match line_items with
      | [] => 1
      | item :: _ => item.quantity
    shipping_name := Option.bind session.shipping_details (fun sd => sd.name)
    shipping_address_line1 :=
      Option.bind (Option.bind session.shipping_details (fun sd => sd.address))
        (fun a => a.line1)
    shipping_address_line2 :=
      Option.bind (Option.bind session.shipping_details (fun sd => sd.address))
        (fun a => a.line2)
    shipping_city :=
      Option.bind (Option.bind session.shipping_details (fun sd => sd.address))
        (fun a => a.city)
    shipping_state :=
      Option.bind (Option.bind session.shipping_details (fun sd => sd.address))
        (fun a => a.state)
    shipping_postal_code :=
      Option.bind (Option.bind session.shipping_details (fun sd => sd.address))
        (fun a => a.postal_code)
    shipping_country :=
      Option.bind (Option.bind session.shipping_details (fun sd => sd.address))
        (fun a => a.country) }

/-- Helper `handle_checkout_session_completed` (stripe.py lines 131-163): list the
session's line items, build `order_data` from the session and the items
(see `checkoutOrderData`) and create the order.
Its `except` clause logs and re-raises, so every exception propagates. -/
def handle_checkout_session_completed (env : WebhookEnv)
    (session : CheckoutSessionObject) : Except PyExn Order × List Effect :=
  match env.list_line_items session.id with
  | .error e => (.error e, [Effect.stripeListLineItems session.id])
  | .ok line_items =>
    match env.create_order (checkoutOrderData session line_items) with
    | .error e =>
        (.error e,
         [Effect.stripeListLineItems session.id,
          Effect.crudCreateOrder (checkoutOrderData session line_items)])
    | .ok new_order =>
        (.ok new_order,
         [Effect.stripeListLineItems session.id,
          Effect.crudCreateOrder (checkoutOrderData session line_items)])

/-- The JSON body the webhook returns on success. -/
def successResponse : List (String × String) := [("status", "success")]

/-- The handler `stripe_webhook` (stripe.py lines 103-128): verify the event
(only `ValueError` is caught, becoming a 400 "Invalid payload"; a
`SignatureVerificationError` escapes the handler), then dispatch on
`event["type"]`: checkout completion runs
`handle_checkout_session_completed` (whose exceptions propagate);
`payment_intent.succeeded` and every other type are only logged; finally
return `\x7b"status": "success"\x7d`. -/
def stripe_webhook (env : WebhookEnv) :
    Except PyExn (List (String × String)) × List Effect :=
  match env.construct_event with
  | .valueError _ => (.error (.httpException 400 "Invalid payload"), [])
  | .signatureVerificationError msg => (.error (.signatureVerification msg), [])
  | .ok event =>
    if event.type = "checkout.session.completed" then
      match handle_checkout_session_completed env event.obj with
      | (.error e, effs) => (.error e, effs)
      | (.ok _, effs) => (.ok successResponse, effs)
    else if event.type = "payment_intent.succeeded" then
      (.ok successResponse, [])
    else
      (.ok successResponse, [])

/-! ### Checkout-session creation endpoint (`POST /create-checkout-session`,
stripe.py lines 212-285) -/

/-- A Stripe price object, with the `id` field the source reads. -/
structure Price where
  id : String
deriving DecidableEq, Repr

/-- The created checkout session, with the `id` field the source reads. -/
structure CreatedCheckoutSession where
  id : String
deriving DecidableEq, Repr

/-- Request model `CreateCheckoutSessionRequest` (stripe.py lines 203-205). -/
structure CreateCheckoutSessionRequest where
  product_id : String
  cancel_url : String
deriving DecidableEq, Repr

/-- Response model `CreateCheckoutSessionResponse` (stripe.py lines 208-209). -/
structure CreateCheckoutSessionResponse where
  session_id : String
deriving DecidableEq, Repr

/-- Oracle for `create_checkout_session`: `priceList` is
`stripe.Price.list(product=product_id, active=True, limit=1).data`;
`sessionCreate` is `stripe.checkout.Session.create`, given the selected price
id, the product id (put into the metadata) and the authenticated user (its
id becomes `client_reference_id`, its email goes into the metadata); the
call's many other arguments are constants of the source and do not affect
control flow. -/
structure CheckoutEnv where
  priceList : String → Except PyExn (List Price)
  sessionCreate : String → String → User → Except PyExn CreatedCheckoutSession

/-- The body of the `try` block of `create_checkout_session`
(stripe.py lines 217-282): fetch active prices, raise a 400 `HTTPException`
when the list is empty (Python list truthiness of `prices.data`), create the
session with the first price, return its id. -/
def checkoutTryBody (env : CheckoutEnv) (request : CreateCheckoutSessionRequest)
    (user : User) : Except PyExn CreateCheckoutSessionResponse × List Effect :=
  match env.priceList request.product_id with
  | .error e => (.error e, [Effect.stripePriceList request.product_id])
  | .ok [] =>
      (.error (.httpException 400 "No active price found for this product"),
       [Effect.stripePriceList request.product_id])
  | .ok (price :: _) =>
    match env.sessionCreate price.id request.product_id user with
    | .error e =>
        (.error e,
         [Effect.stripePriceList request.product_id,
          Effect.stripeSessionCreate price.id])
    | .ok checkout_session =>
        (.ok { session_id := checkout_session.id },
         [Effect.stripePriceList request.product_id,
          Effect.stripeSessionCreate price.id])

/-- The handler `create_checkout_session` (stripe.py lines 212-285): the
`try` body wrapped in `except Exception as e: raise HTTPException(400,
str(e))` — so every failure, the in-handler 400 included, surfaces as a 400. -/
def create_checkout_session (env : CheckoutEnv)
    (request : CreateCheckoutSessionRequest) (user : User) :
    Except PyExn CreateCheckoutSessionResponse × List Effect :=
  match checkoutTryBody env request user with
  | (.ok v, effs) => (.ok v, effs)
  | (.error e, effs) => (.error (.httpException 400 e.toStr), effs)

/-! ### Product lookup endpoint (`GET /get-product/{product_id}`,
stripe.py lines 288-300) -/

/-- A Stripe product, with the fields the source reads. -/
structure Product where
  id : String
  name : String
  description : Option String
  images : List String
  metadata : List (String × String)
deriving DecidableEq, Repr

/-- The JSON body `get_product` returns. -/
structure ProductResponse where
  id : String
  name : String
  description : Option String
  images : List String
  metadata : List (String × String)
deriving DecidableEq, Repr

/-- Oracle for `get_product`: `stripe.Product.retrieve`. -/
structure ProductEnv where
  productRetrieve : String → Except PyExn Product

/-- The handler `get_product` (stripe.py lines 288-300): retrieve the product
and return its fields; on any exception raise `HTTPException(400, str(e))`. -/
def get_product (env : ProductEnv) (product_id : String) :
    Except PyExn ProductResponse × List Effect :=
  match env.productRetrieve product_id with
  | .error e =>
      (.error (.httpException 400 e.toStr), [Effect.stripeProductRetrieve product_id])
  | .ok product =>
      (.ok { id := product.id, name := product.name,
             description := product.description, images := product.images,
             metadata := product.metadata },
       [Effect.stripeProductRetrieve product_id])

/-! ### Helper lemmas -/

theorem frameworkRun_ok {α : Type} (v : α) :
    frameworkRun (.ok v) = .success v := rfl

theorem frameworkRun_error_http {α : Type} (s : Nat) (d : String) :
    frameworkRun (α := α) (.error (.httpException s d)) = .failure s d := rfl

theorem frameworkRun_error_nonhttp {α : Type} (e : PyExn) (h : e.isHttp = false) :
    frameworkRun (α := α) (.error e) = .failure 500 "Internal Server Error" := by
  cases e <;> first
    | rfl
    | simp [PyExn.isHttp] at h

/-- Python `x and x` is `x` (both branches of the truthiness test return
`x`). -/
theorem pyAnd_self (a : Option String) : pyAnd a a = a := by
  unfold pyAnd; split <;> rfl

/-- The `except`-wrapper of the refund handler does not change the effect
trace of the `try` body. -/
theorem refund_payment_intent_effects (env : RefundEnv) (order_id : String)
    (refund_request : CreateRefundsRequest) (user : User) :
    (refund_payment_intent env order_id refund_request user).2 =
      (refundTryBody env order_id refund_request user).2 := by
  unfold refund_payment_intent
  rcases refundTryBody env order_id refund_request user with ⟨r, effs⟩
  cases r <;> rfl

/-- Every exception `handle_checkout_session_completed` ends with comes from
one of its two external calls. -/
theorem handle_checkout_error_source (env : WebhookEnv)
    (session : CheckoutSessionObject) (e : PyExn)
    (h : (handle_checkout_session_completed env session).1 = .error e) :
    env.list_line_items session.id = .error e ∨
      ∃ d, env.create_order d = .error e := by
  unfold handle_checkout_session_completed at h
  cases hli : env.list_line_items session.id with
  | error e2 =>
      rw [hli] at h
      simp only at h
      left
      injection h with he
      rw [he]
  | ok line_items =>
      rw [hli] at h
      simp only at h
      cases hco : env.create_order (checkoutOrderData session line_items) with
      | error e3 =>
          rw [hco] at h
          simp only at h
          right
          refine ⟨checkoutOrderData session line_items, ?_⟩
          rw [hco, h]
      | ok new_order =>
          rw [hco] at h
          simp only at h
          exact Except.noConfusion h

/-! ### C1 -/

/-- Concrete refund environment for C1: the processor refund succeeds and the
order lookup finds no order. -/
def envC1 : RefundEnv :=
  { refundCreate := fun _ _ _ _ => .ok { id := "re_1", status := some "succeeded" }
    getOrder := fun _ => .ok none
    updateOrder := fun _ _ => .ok { id := "order_1", user_id := "user_1" } }

/-- Concrete refund request for C1. -/
def reqC1 : CreateRefundsRequest :=
  { payment_intent_id := "pi_1"
    cancel_reason := { reason := "Defective", details := "" }
    amount := 999 }

/-- Concrete authenticated user for C1. -/
def userC1 : User := { id := "user_1", email := "user1@example.com" }

/-- C1: the claim says that when the processor refund succeeds but the
looked-up order is absent (or owned by another user), `refund_payment_intent`
fails with HTTP 404.  Evaluating the code at such an input shows the
response is instead HTTP 500: the 404 `HTTPException` raised at
stripe.py line 83 is an `Exception`, so the handler's own
`except Exception` (line 98) catches it and re-raises
`HTTPException(500, str(e))`.  The 404 never reaches the client. -/
theorem refund_missing_order_yields_500_not_404 :
    frameworkRun (refund_payment_intent envC1 "order_1" reqC1 userC1).1 =
      HttpResult.failure 500 "404: Order not found" ∧
    (frameworkRun (refund_payment_intent envC1 "order_1" reqC1 userC1).1).statusCode ≠ 404 := by
  constructor
  · rfl
  · decide

/-! ### C2 -/

/-- Concrete payment-intent environment for C2: the body parses but the
processor call raises. -/
def envC2 : PaymentIntentEnv :=
  { request_json := .ok { amount := some 1500 }
    paymentIntentCreate := fun _ => .error (.stripeError "card_declined") }

/-- C2 counterexample: on an input where `create_payment_intent`'s processor
call raises, the handler does NOT return an HTTP error response: its
`except` branch RETURNS the dict with an "error" key, which the framework
sends as a 200 success. -/
theorem create_payment_intent_error_is_success_response :
    frameworkRun (create_payment_intent envC2).1 =
      HttpResult.success (.errorBody "card_declined") ∧
    (frameworkRun (create_payment_intent envC2).1).statusCode = 200 :=
  ⟨rfl, rfl⟩

/-- External collaborators of the webhook handler raise library exceptions,
never `fastapi.HTTPException` (they know nothing of FastAPI). -/
def WebhookEnvRaisesNoHttpExn (env : WebhookEnv) : Prop :=
  (∀ sid e, env.list_line_items sid = .error e → e.isHttp = false) ∧
  (∀ d e, env.create_order d = .error e → e.isHttp = false)

/-- Statuses the spec allows for error responses. -/
def allowedErrorStatus (s : Nat) : Prop := s = 400 ∨ s = 404 ∨ s = 500

/-- C2 (amended): for the refund, webhook, checkout-session and product
endpoints, every failure surfaces as an HTTP error response with status 400,
404 or 500 (for the webhook, provided its external collaborators raise no
`HTTPException`); `create_payment_intent`, however, never produces an HTTP
error response: even when its processor call raises, it returns a 200
success whose body carries the error message. -/
theorem handler_failures_have_allowed_status_except_payment_intent :
    (∀ (env : RefundEnv) (oid : String) (rr : CreateRefundsRequest) (u : User)
       (s : Nat) (d : String),
       frameworkRun (refund_payment_intent env oid rr u).1 = .failure s d →
       allowedErrorStatus s) ∧
    (∀ (env : WebhookEnv), WebhookEnvRaisesNoHttpExn env →
       ∀ (s : Nat) (d : String),
       frameworkRun (stripe_webhook env).1 = .failure s d →
       allowedErrorStatus s) ∧
    (∀ (env : CheckoutEnv) (req : CreateCheckoutSessionRequest) (u : User)
       (s : Nat) (d : String),
       frameworkRun (create_checkout_session env req u).1 = .failure s d →
       allowedErrorStatus s) ∧
    (∀ (env : ProductEnv) (pid : String) (s : Nat) (d : String),
       frameworkRun (get_product env pid).1 = .failure s d →
       allowedErrorStatus s) ∧
    (∀ (env : PaymentIntentEnv), ∃ r,
       (create_payment_intent env).1 = Except.ok r ∧
       frameworkRun (create_payment_intent env).1 = HttpResult.success r) := by
  refine ⟨?_, ?_, ?_, ?_, ?_⟩
  · -- refund: the except-wrapper turns every exception into a 500 HTTPException
    intro env oid rr u s d h
    unfold refund_payment_intent at h
    rcases htb : refundTryBody env oid rr u with ⟨r, effs⟩
    rw [htb] at h
    cases r with
    | ok o => simp only [frameworkRun] at h; exact absurd h (by simp)
    | error e =>
        simp only [frameworkRun] at h
        injection h with h1 h2
        right; right; exact h1.symm
  · -- webhook
    intro env hno s d h
    unfold stripe_webhook at h
    cases hce : env.construct_event with
    | valueError msg =>
        rw [hce] at h
        simp only [frameworkRun] at h
        injection h with h1 h2
        left; exact h1.symm
    | signatureVerificationError msg =>
        rw [hce] at h
        simp only [frameworkRun] at h
        injection h with h1 h2
        right; right; exact h1.symm
    | ok event =>
        rw [hce] at h
        simp only at h
        by_cases hty : event.type = "checkout.session.completed"
        · rw [if_pos hty] at h
          rcases hh : handle_checkout_session_completed env event.obj with ⟨r, effs⟩
          rw [hh] at h
          cases r with
          | ok o => simp [frameworkRun] at h
          | error e =>
              simp only at h
              have hsrc := handle_checkout_error_source env event.obj e (by rw [hh])
              have hnh : e.isHttp = false := by
                rcases hsrc with h1 | ⟨dd, h2⟩
                · exact hno.1 _ _ h1
                · exact hno.2 _ _ h2
              rw [frameworkRun_error_nonhttp e hnh] at h
              injection h with h1 h2
              right; right; exact h1.symm
        · rw [if_neg hty] at h
          split at h <;> simp [frameworkRun] at h
  · -- checkout session: the except-wrapper turns every exception into a 400
    intro env req u s d h
    unfold create_checkout_session at h
    rcases htb : checkoutTryBody env req u with ⟨r, effs⟩
    rw [htb] at h
    cases r with
    | ok o => simp only [frameworkRun] at h; exact absurd h (by simp)
    | error e =>
        simp only [frameworkRun] at h
        injection h with h1 h2
        left; exact h1.symm
  · -- product lookup: every exception becomes a 400
    intro env pid s d h
    unfold get_product at h
    cases hr : env.productRetrieve pid with
    | error e =>
        rw [hr] at h
        simp only [frameworkRun] at h
        injection h with h1 h2
        left; exact h1.symm
    | ok p =>
        rw [hr] at h
        simp only [frameworkRun] at h
        exact absurd h (by simp)
  · -- payment intent: both except-branches RETURN, so the outcome is always ok
    intro env
    cases hj : env.request_json with
    | error e =>
        exact ⟨.errorBody e.toStr, by simp [create_payment_intent, hj],
               by simp [create_payment_intent, hj, frameworkRun]⟩
    | ok data =>
        cases hric : env.paymentIntentCreate data.amount with
        | error e =>
            exact ⟨.errorBody e.toStr, by simp [create_payment_intent, hj, hric],
                   by simp [create_payment_intent, hj, hric, frameworkRun]⟩
        | ok intent =>
            exact ⟨.clientSecret intent.client_secret,
                   by simp [create_payment_intent, hj, hric],
                   by simp [create_payment_intent, hj, hric, frameworkRun]⟩

/-- Concrete webhook environment for the C2 witness: verification fails with
a `ValueError` and the collaborators raise only library exceptions. -/
def envC2w : WebhookEnv :=
  { construct_event := .valueError "bad json"
    list_line_items := fun _ => .ok []
    create_order := fun _ => .error (.stripeError "db down") }

/-- Witness for C2 (amended): the webhook conjunct applied at a concrete
environment whose verification fails with a `ValueError`. -/
theorem handler_failures_have_allowed_status_except_payment_intent_witness :
    frameworkRun (stripe_webhook envC2w).1 = .failure 400 "Invalid payload" ∧
    allowedErrorStatus 400 := by
  refine ⟨rfl, ?_⟩
  exact handler_failures_have_allowed_status_except_payment_intent.2.1 envC2w
    ⟨fun _ e h => by exact absurd h (by simp [envC2w]),
     fun _ e h => by
       simp only [envC2w] at h
       injection h with he
       rw [← he]
       rfl⟩
    400 "Invalid payload" rfl

/-! ### C3 -/

/-- A minimal session object for webhook environments whose session branch is
never taken. -/
def dummySession : CheckoutSessionObject :=
  { id := "cs_1"
    client_reference_id := none
    payment_intent := none
    amount_total := 0
    currency := "usd"
    customer_details_email := "buyer@example.com"
    metadata_product_id := none
    shipping_details := none }

/-- Concrete webhook environment for the C3 counterexample: verification
fails with a signature mismatch (`SignatureVerificationError`). -/
def envC3 : WebhookEnv :=
  { construct_event := .signatureVerificationError "signature mismatch"
    list_line_items := fun _ => .ok []
    create_order := fun _ => .ok { id := "order_3", user_id := "user_3" } }

/-- C3 counterexample: the claim says every verification failure — a
signature mismatch included — yields HTTP 400.  On a signature mismatch
`construct_event` raises `SignatureVerificationError`, which is not a
`ValueError`, so the `except ValueError` at stripe.py line 113 does not
catch it; it escapes the handler and the framework answers 500, not 400. -/
theorem webhook_signature_failure_yields_500_not_400 :
    frameworkRun (stripe_webhook envC3).1 =
      HttpResult.failure 500 "Internal Server Error" ∧
    (frameworkRun (stripe_webhook envC3).1).statusCode ≠ 400 := by
  constructor
  · rfl
  · decide

/-- C3 (amended): of the two verification failure modes of
`stripe.Webhook.construct_event`, only an invalid payload (`ValueError`) is
caught and answered with HTTP 400 "Invalid payload"; a signature mismatch
(`SignatureVerificationError`) escapes the handler uncaught and surfaces as
a plain HTTP 500. -/
theorem webhook_verification_failure_statuses (env : WebhookEnv) (msg : String) :
    (env.construct_event = .valueError msg →
       frameworkRun (stripe_webhook env).1 =
         HttpResult.failure 400 "Invalid payload") ∧
    (env.construct_event = .signatureVerificationError msg →
       frameworkRun (stripe_webhook env).1 =
         HttpResult.failure 500 "Internal Server Error") := by
  constructor <;> intro h <;> unfold stripe_webhook <;> rw [h] <;> rfl

/-- Concrete webhook environment for the C3 witness: verification fails with
a `ValueError`. -/
def envC3w : WebhookEnv :=
  { construct_event := .valueError "bad payload"
    list_line_items := fun _ => .ok []
    create_order := fun _ => .ok { id := "order_3w", user_id := "user_3w" } }

/-- Witness for C3 (amended): the `ValueError` half applied at a concrete
environment. -/
theorem webhook_verification_failure_statuses_witness :
    envC3w.construct_event = .valueError "bad payload" ∧
    frameworkRun (stripe_webhook envC3w).1 =
      HttpResult.failure 400 "Invalid payload" :=
  ⟨rfl, (webhook_verification_failure_statuses envC3w "bad payload").1 rfl⟩

/-! ### C4 -/

/-- C4: `refund_payment_intent` contacts the processor FIRST and only then
looks the order up: whenever the processor refund call succeeds and the
looked-up order is absent or owned by another user, the handler ends in an
error response, yet its effect trace is exactly the processor refund call
followed by the order lookup — the processor-side refund has been created
and no subsequent external call undoes it. -/
theorem refund_requested_before_order_check (env : RefundEnv) (order_id : String)
    (refund_request : CreateRefundsRequest) (user : User) (refund : Refund)
    (hrc : env.refundCreate refund_request.payment_intent_id refund_request.amount
        "requested_by_customer" (customerReason refund_request.cancel_reason) =
        .ok refund)
    (hord : env.getOrder order_id = .ok none ∨
        ∃ order, env.getOrder order_id = .ok (some order) ∧
          order.user_id ≠ user.id) :
    refund_payment_intent env order_id refund_request user =
      (.error (.httpException 500 "404: Order not found"),
       [Effect.stripeRefundCreate refund_request.payment_intent_id
          refund_request.amount "requested_by_customer"
          (customerReason refund_request.cancel_reason),
        Effect.crudGetOrder order_id]) := by
  unfold refund_payment_intent refundTryBody
  rw [hrc]
  rcases hord with h | ⟨order, h, hne⟩
  · rw [h]
    rfl
  · rw [h]
    simp only [hne, if_true, refundCallEffect]
    simp [hne]
    decide

/-- Concrete refund environment for the C4 witness: processor refund
succeeds, the order exists but belongs to a different user. -/
def envC4 : RefundEnv :=
  { refundCreate := fun _ _ _ _ => .ok { id := "re_4", status := some "succeeded" }
    getOrder := fun _ => .ok (some { id := "order_4", user_id := "someone_else" })
    updateOrder := fun _ _ => .ok { id := "order_4", user_id := "someone_else" } }

/-- Concrete refund request for the C4 witness. -/
def reqC4 : CreateRefundsRequest :=
  { payment_intent_id := "pi_4"
    cancel_reason := { reason := "Other", details := "changed my mind" }
    amount := 250 }

/-- Concrete authenticated user for the C4 witness. -/
def userC4 : User := { id := "user_4", email := "user4@example.com" }

/-- Witness for C4 at a concrete non-owned order. -/
theorem refund_requested_before_order_check_witness :
    (envC4.getOrder "order_4" =
       .ok (some { id := "order_4", user_id := "someone_else" }) ∧
     "someone_else" ≠ userC4.id) ∧
    refund_payment_intent envC4 "order_4" reqC4 userC4 =
      (.error (.httpException 500 "404: Order not found"),
       [Effect.stripeRefundCreate "pi_4" 250 "requested_by_customer"
          "changed my mind",
        Effect.crudGetOrder "order_4"]) :=
  ⟨⟨rfl, by decide⟩,
   refund_requested_before_order_check envC4 "order_4" reqC4 userC4
     { id := "re_4", status := some "succeeded" } rfl
     (Or.inr ⟨{ id := "order_4", user_id := "someone_else" }, rfl, by decide⟩)⟩

/-! ### C5 -/

/-- C5: when the processor refund succeeds with status "succeeded" and the
order exists and is owned by the caller, the handler updates the order with
`stripe_refund_id` set to the refund's id and `status` set to "refunded",
and returns the updated order. -/
theorem refund_succeeded_marks_order_refunded (env : RefundEnv) (order_id : String)
    (refund_request : CreateRefundsRequest) (user : User) (refund : Refund)
    (order updated_order : Order)
    (hrc : env.refundCreate refund_request.payment_intent_id refund_request.amount
        "requested_by_customer" (customerReason refund_request.cancel_reason) =
        .ok refund)
    (hst : refund.status = some "succeeded")
    (hord : env.getOrder order_id = .ok (some order))
    (hown : order.user_id = user.id)
    (hupd : env.updateOrder order_id
        { stripe_refund_id := refund.id, status := "refunded" } = .ok updated_order) :
    refund_payment_intent env order_id refund_request user =
      (.ok updated_order,
       [refundCallEffect refund_request, Effect.crudGetOrder order_id,
        Effect.crudUpdateOrder order_id
          { stripe_refund_id := refund.id, status := "refunded" }]) := by
  have hdata : refundOrderData refund =
      { stripe_refund_id := refund.id, status := "refunded" } := by
    simp [refundOrderData, hst, pyAnd, truthy]
  unfold refund_payment_intent refundTryBody
  rw [hrc, hord]
  simp only [hown, hdata, ne_eq, not_true_eq_false, if_false, hupd]

/-- Concrete refund environment for the C5 witness. -/
def envC5 : RefundEnv :=
  { refundCreate := fun _ _ _ _ => .ok { id := "re_5", status := some "succeeded" }
    getOrder := fun _ => .ok (some { id := "order_5", user_id := "user_5" })
    updateOrder := fun _ _ => .ok { id := "order_5", user_id := "user_5" } }

/-- Concrete refund request for the C5 witness. -/
def reqC5 : CreateRefundsRequest :=
  { payment_intent_id := "pi_5"
    cancel_reason := { reason := "Too expensive", details := "" }
    amount := 5000 }

/-- Concrete authenticated user for the C5 witness. -/
def userC5 : User := { id := "user_5", email := "user5@example.com" }

/-- Witness for C5 at a concrete succeeded refund on an owned order. -/
theorem refund_succeeded_marks_order_refunded_witness :
    (envC5.getOrder "order_5" = .ok (some { id := "order_5", user_id := "user_5" }) ∧
     userC5.id = "user_5") ∧
    refund_payment_intent envC5 "order_5" reqC5 userC5 =
      (.ok { id := "order_5", user_id := "user_5" },
       [refundCallEffect reqC5, Effect.crudGetOrder "order_5",
        Effect.crudUpdateOrder "order_5"
          { stripe_refund_id := "re_5", status := "refunded" }]) :=
  ⟨⟨rfl, rfl⟩,
   refund_succeeded_marks_order_refunded envC5 "order_5" reqC5 userC5
     { id := "re_5", status := some "succeeded" }
     { id := "order_5", user_id := "user_5" }
     { id := "order_5", user_id := "user_5" }
     rfl rfl rfl rfl rfl⟩

/-! ### C9 -/

/-- Spec-side description of the status written for a refund whose status is
not "succeeded": the refund's status string, or the sentinel "no status!"
when the status is the empty string or absent. -/
def specRefundStatus : Option String → String
  | none => "no status!"
  | some s => if s = "" then "no status!" else s

/-- On a refund whose status is not "succeeded", the `order_data` the code
builds matches the spec-side description `specRefundStatus`. -/
theorem refundOrderData_non_succeeded (refund : Refund)
    (h : refund.status ≠ some "succeeded") :
    refundOrderData refund =
      { stripe_refund_id := refund.id, status := specRefundStatus refund.status } := by
  obtain ⟨rid, st⟩ := refund
  simp only at h
  cases st with
  | none => simp [refundOrderData, specRefundStatus, pyAnd, pyOr, truthy]
  | some s =>
      by_cases hs : s = ""
      · subst hs
        simp [refundOrderData, specRefundStatus, pyAnd, pyOr, truthy]
      · have hts : s ≠ "succeeded" := by
          intro hcon
          exact h (by rw [hcon])
        simp [refundOrderData, specRefundStatus, pyAnd, pyOr, truthy, hs, hts]

/-- C9: when the processor refund succeeds with a status other than
"succeeded" and the order exists and is owned by the caller, the handler
writes the refund's status string as the order status — or the literal
"no status!" when the refund status is empty or absent — together with the
refund id, and returns the updated order. -/
theorem refund_non_succeeded_status_written (env : RefundEnv) (order_id : String)
    (refund_request : CreateRefundsRequest) (user : User) (refund : Refund)
    (order updated_order : Order)
    (hrc : env.refundCreate refund_request.payment_intent_id refund_request.amount
        "requested_by_customer" (customerReason refund_request.cancel_reason) =
        .ok refund)
    (hst : refund.status ≠ some "succeeded")
    (hord : env.getOrder order_id = .ok (some order))
    (hown : order.user_id = user.id)
    (hupd : env.updateOrder order_id
        { stripe_refund_id := refund.id, status := specRefundStatus refund.status } =
        .ok updated_order) :
    refund_payment_intent env order_id refund_request user =
      (.ok updated_order,
       [refundCallEffect refund_request, Effect.crudGetOrder order_id,
        Effect.crudUpdateOrder order_id
          { stripe_refund_id := refund.id,
            status := specRefundStatus refund.status }]) := by
  have hdata := refundOrderData_non_succeeded refund hst
  unfold refund_payment_intent refundTryBody
  rw [hrc, hord]
  simp only [hown, hdata, ne_eq, not_true_eq_false, if_false, hupd]

/-- Concrete refund environment for the C9 witness: the processor reports a
"pending" refund. -/
def envC9 : RefundEnv :=
  { refundCreate := fun _ _ _ _ => .ok { id := "re_9", status := some "pending" }
    getOrder := fun _ => .ok (some { id := "order_9", user_id := "user_9" })
    updateOrder := fun _ _ => .ok { id := "order_9", user_id := "user_9" } }

/-- Concrete refund request for the C9 witness. -/
def reqC9 : CreateRefundsRequest :=
  { payment_intent_id := "pi_9"
    cancel_reason := { reason := "Other", details := "" }
    amount := 10 }

/-- Concrete authenticated user for the C9 witness. -/
def userC9 : User := { id := "user_9", email := "user9@example.com" }

/-- Witness for C9 at a concrete "pending" refund on an owned order. -/
theorem refund_non_succeeded_status_written_witness :
    ((some "pending" : Option String) ≠ some "succeeded" ∧
     specRefundStatus (some "pending") = "pending") ∧
    refund_payment_intent envC9 "order_9" reqC9 userC9 =
      (.ok { id := "order_9", user_id := "user_9" },
       [refundCallEffect reqC9, Effect.crudGetOrder "order_9",
        Effect.crudUpdateOrder "order_9"
          { stripe_refund_id := "re_9", status := specRefundStatus (some "pending") }]) :=
  ⟨⟨by decide, by decide⟩,
   refund_non_succeeded_status_written envC9 "order_9" reqC9 userC9
     { id := "re_9", status := some "pending" }
     { id := "order_9", user_id := "user_9" }
     { id := "order_9", user_id := "user_9" }
     rfl (by decide) rfl rfl rfl⟩

/-! ### C6 -/

/-- C6: `create_checkout_session` answers 400 when the active-price lookup
returns no prices or when either processor call raises, and otherwise
returns the created session's identifier as a 200 success. -/
theorem create_checkout_session_outcomes (env : CheckoutEnv)
    (request : CreateCheckoutSessionRequest) (user : User) :
    (env.priceList request.product_id = .ok [] →
       ∃ d, frameworkRun (create_checkout_session env request user).1 =
         HttpResult.failure 400 d) ∧
    (∀ e, env.priceList request.product_id = .error e →
       ∃ d, frameworkRun (create_checkout_session env request user).1 =
         HttpResult.failure 400 d) ∧
    (∀ price rest e, env.priceList request.product_id = .ok (price :: rest) →
       env.sessionCreate price.id request.product_id user = .error e →
       ∃ d, frameworkRun (create_checkout_session env request user).1 =
         HttpResult.failure 400 d) ∧
    (∀ price rest cs, env.priceList request.product_id = .ok (price :: rest) →
       env.sessionCreate price.id request.product_id user = .ok cs →
       frameworkRun (create_checkout_session env request user).1 =
         HttpResult.success { session_id := cs.id }) := by
  refine ⟨?_, ?_, ?_, ?_⟩
  · intro h
    refine ⟨(PyExn.httpException 400 "No active price found for this product").toStr, ?_⟩
    unfold create_checkout_session checkoutTryBody
    rw [h]
    rfl
  · intro e h
    refine ⟨e.toStr, ?_⟩
    unfold create_checkout_session checkoutTryBody
    rw [h]
    rfl
  · intro price rest e h1 h2
    refine ⟨e.toStr, ?_⟩
    unfold create_checkout_session checkoutTryBody
    rw [h1]
    simp only
    rw [h2]
    rfl
  · intro price rest cs h1 h2
    unfold create_checkout_session checkoutTryBody
    rw [h1]
    simp only
    rw [h2]
    rfl

/-- Concrete checkout environment for the C6 witness: the product has no
active price. -/
def envC6 : CheckoutEnv :=
  { priceList := fun _ => .ok []
    sessionCreate := fun _ _ _ => .ok { id := "cs_6" } }

/-- Concrete checkout request for the C6 witness. -/
def reqC6 : CreateCheckoutSessionRequest :=
  { product_id := "prod_6", cancel_url := "/cancel" }

/-- Concrete authenticated user for the C6 witness. -/
def userC6 : User := { id := "user_6", email := "user6@example.com" }

/-- Witness for C6: the no-active-price conjunct at a concrete environment. -/
theorem create_checkout_session_outcomes_witness :
    envC6.priceList "prod_6" = .ok [] ∧
    ∃ d, frameworkRun (create_checkout_session envC6 reqC6 userC6).1 =
      HttpResult.failure 400 d :=
  ⟨rfl, (create_checkout_session_outcomes envC6 reqC6 userC6).1 rfl⟩

/-! ### C7 -/

/-- C7: for a successfully verified event whose type is not
"checkout.session.completed" — "payment_intent.succeeded" and all other
types alike — the webhook performs no persistence operation and returns the
success body. -/
theorem webhook_other_events_no_persistence (env : WebhookEnv) (event : StripeEvent)
    (hce : env.construct_event = .ok event)
    (hty : event.type ≠ "checkout.session.completed") :
    (stripe_webhook env).1 = .ok successResponse ∧
    ∀ eff ∈ (stripe_webhook env).2, eff.isPersistence = false := by
  have hrun : stripe_webhook env = (.ok successResponse, []) := by
    unfold stripe_webhook
    rw [hce]
    simp only
    rw [if_neg hty]
    split <;> rfl
  rw [hrun]
  refine ⟨rfl, ?_⟩
  intro eff hmem
  simp at hmem

/-- Concrete webhook environment for the C7 witness: a verified
"payment_intent.succeeded" event. -/
def envC7 : WebhookEnv :=
  { construct_event := .ok { type := "payment_intent.succeeded", obj := dummySession }
    list_line_items := fun _ => .ok []
    create_order := fun _ => .ok { id := "order_7", user_id := "user_7" } }

/-- Witness for C7 at a concrete "payment_intent.succeeded" event. -/
theorem webhook_other_events_no_persistence_witness :
    envC7.construct_event = .ok { type := "payment_intent.succeeded", obj := dummySession } ∧
    (stripe_webhook envC7).1 = .ok successResponse ∧
    ∀ eff ∈ (stripe_webhook envC7).2, eff.isPersistence = false :=
  ⟨rfl, webhook_other_events_no_persistence envC7
    { type := "payment_intent.succeeded", obj := dummySession } rfl (by decide)⟩

/-! ### C8 -/

/-- C8: the order created for a completed checkout session carries quantity
1 when the listed line items are empty, and the first line item's quantity
otherwise. -/
theorem checkout_completed_order_quantity (env : WebhookEnv)
    (session : CheckoutSessionObject) (line_items : List LineItem)
    (hli : env.list_line_items session.id = .ok line_items) :
    ∃ data : OrderCreateData,
      (handle_checkout_session_completed env session).2 =
        [Effect.stripeListLineItems session.id, Effect.crudCreateOrder data] ∧
      (line_items = [] → data.quantity = 1) ∧
      (∀ item rest, line_items = item :: rest → data.quantity = item.quantity) := by
  refine ⟨checkoutOrderData session line_items, ?_, ?_, ?_⟩
  · unfold handle_checkout_session_completed
    rw [hli]
    simp only
    cases hco : env.create_order (checkoutOrderData session line_items) <;> rfl
  · intro h
    subst h
    rfl
  · intro item rest h
    subst h
    rfl

/-- Concrete session for the C8 witness. -/
def sessionC8 : CheckoutSessionObject :=
  { id := "cs_8"
    client_reference_id := some "user_8"
    payment_intent := some "pi_8"
    amount_total := 4200
    currency := "usd"
    customer_details_email := "buyer8@example.com"
    metadata_product_id := some "prod_8"
    shipping_details := none }

/-- Concrete webhook environment for the C8 witness: the session has no line
items. -/
def envC8 : WebhookEnv :=
  { construct_event := .ok { type := "checkout.session.completed", obj := sessionC8 }
    list_line_items := fun _ => .ok []
    create_order := fun _ => .ok { id := "order_8", user_id := "user_8" } }

/-- Witness for C8 at a concrete session with an empty line-item list. -/
theorem checkout_completed_order_quantity_witness :
    envC8.list_line_items sessionC8.id = .ok [] ∧
    ∃ data : OrderCreateData,
      (handle_checkout_session_completed envC8 sessionC8).2 =
        [Effect.stripeListLineItems sessionC8.id, Effect.crudCreateOrder data] ∧
      (([] : List LineItem) = [] → data.quantity = 1) ∧
      (∀ item rest, ([] : List LineItem) = item :: rest →
        data.quantity = item.quantity) :=
  ⟨rfl, checkout_completed_order_quantity envC8 sessionC8 [] rfl⟩

/-! ### C10 -/

/-- The effect trace of the refund `try` body always starts with the
processor refund call. -/
theorem refundTryBody_effects_head (env : RefundEnv) (order_id : String)
    (refund_request : CreateRefundsRequest) (user : User) :
    (refundTryBody env order_id refund_request user).2.head? =
      some (refundCallEffect refund_request) := by
  unfold refundTryBody
  repeat' split
  all_goals rfl

/-- C10: on every refund request, the first external call is the processor
refund with reason exactly "requested_by_customer" and metadata
`customer_reason` equal to `cancel_reason.details` precisely when the
request's reason is "Other" with non-empty details, and to
`cancel_reason.reason` otherwise. -/
theorem refund_processor_call_args (env : RefundEnv) (order_id : String)
    (refund_request : CreateRefundsRequest) (user : User) :
    (refund_payment_intent env order_id refund_request user).2.head? =
      some (Effect.stripeRefundCreate refund_request.payment_intent_id
        refund_request.amount "requested_by_customer"
        (if refund_request.cancel_reason.reason = "Other" ∧
            refund_request.cancel_reason.details ≠ ""
         then refund_request.cancel_reason.details
         else refund_request.cancel_reason.reason)) := by
  rw [refund_payment_intent_effects, refundTryBody_effects_head]
  rfl

end StoreStripe
